import Mathlib

/-!
Shallow embedding of the certificate-job core of the send-certificates service:
the data model (models.py), the storage manager with its event-lock registry,
job-status tracker and summary store (storage.py), the job runner
(services.process_certificates_job) and the admission endpoint
(main.create_certificates).

Modelling conventions:
- Python dicts become ordered association lists with unique keys
  (dictLookup / dictInsert / dictPop mirror d[k], d[k] = v, d.pop(k, None)).
- datetime values are abstracted to an ambient Nat clock; an ISO-8601
  timestamp string inside a JSON document is modelled by JsonVal.nat.
- Python exceptions become an explicit PyExc value threaded through Except.
- External collaborators (renderer, LibreOffice converter, SMTP mailer) are
  modelled by a StepOutcome oracle giving the outcome of the three-step
  pipeline for each member, exactly matching the branch structure of
  process_certificates_job.
-/

namespace SendCert

/-! ## models.py -/

inductive Gender where
  | male
  | female
deriving DecidableEq, Repr

def Gender.value : Gender → String
  | .male => "male"
  | .female => "female"

inductive JobStatus where
  | pending
  | processing
  | completed
  | failed
deriving DecidableEq, Repr

def JobStatus.value : JobStatus → String
  | .pending => "pending"
  | .processing => "processing"
  | .completed => "completed"
  | .failed => "failed"

inductive MemberStatus where
  | pending
  | sent
  | failed
deriving DecidableEq, Repr

def MemberStatus.value : MemberStatus → String
  | .pending => "pending"
  | .sent => "sent"
  | .failed => "failed"

structure Member where
  name : String
  email : String
  gender : Gender
deriving DecidableEq, Repr

structure MemberResult where
  name : String
  email : String
  gender : String
  status : MemberStatus
  sent_at : Option Nat := none
  certificate_url : Option String := none
  error : Option String := none
deriving DecidableEq, Repr

structure JobProgress where
  total : Nat
  completed : Nat
  successful : Nat
  failed : Nat
deriving DecidableEq, Repr

/-- One entry of StorageManager._job_status (the in-memory status dict). -/
structure JobStatusEntry where
  job_id : String
  event_name : String
  folder_name : String
  status : JobStatus
  progress : JobProgress
  created_at : Nat
  updated_at : Nat
deriving DecidableEq, Repr

structure JobSummary where
  job_id : String
  event_name : String
  announced_name : String
  folder_name : String
  date : String
  official : Bool
  created_at : Nat
  completed_at : Option Nat
  status : JobStatus
  total_members : Nat
  successful : Nat
  failed : Nat
  members : List MemberResult
deriving DecidableEq, Repr

structure EventListItem where
  folder_name : String
  event_name : String
  announced_name : String
  date : String
  created_at : Nat
  status : JobStatus
  total_members : Nat
  successful : Nat
  failed : Nat
deriving DecidableEq, Repr

/-! ## Python dict model -/

def dictLookup {α : Type} : List (String × α) → String → Option α
  | [], _ => none
  | (k, v) :: rest, key => if k = key then some v else dictLookup rest key

def dictInsert {α : Type} : List (String × α) → String → α → List (String × α)
  | [], key, v => [(key, v)]
  | (k, w) :: rest, key, v =>
    if k = key then (k, v) :: rest else (k, w) :: dictInsert rest key v

def dictPop {α : Type} : List (String × α) → String → List (String × α)
  | [], _ => []
  | (k, w) :: rest, key => if k = key then rest else (k, w) :: dictPop rest key

/-! ## Python exceptions and JSON values -/

inductive PyExc where
  | typeError (msg : String)
  | keyError (key : String)
  | valueError (msg : String)
  | validationError (msg : String)
  | jsonDecodeError
deriving DecidableEq, Repr

inductive JsonVal where
  | str (s : String)
  | nat (n : Nat)
  | bool (b : Bool)
  | null
  | arr (elems : List JsonVal)
  | obj (fields : List (String × JsonVal))
deriving Repr

/-- Content of a summary.json file: parseable JSON or text json.load rejects. -/
inductive FileText where
  | json (v : JsonVal)
  | notJson
deriving Repr

/-! ## StorageManager state (storage.py) -/

structure StorageState where
  active_jobs : List (String × String)
  job_status : List (String × JobStatusEntry)
  files : List (String × FileText)
  clock : Nat
deriving Repr

def is_event_processing (st : StorageState) (event_name : String) : Bool :=
  (dictLookup st.active_jobs event_name).isSome

def get_active_job_id (st : StorageState) (event_name : String) : Option String :=
  dictLookup st.active_jobs event_name

def mark_event_processing (st : StorageState) (event_name job_id : String) : StorageState :=
  { st with active_jobs := dictInsert st.active_jobs event_name job_id }

def mark_event_completed (st : StorageState) (event_name : String) : StorageState :=
  { st with active_jobs := dictPop st.active_jobs event_name }

def initialize_job_status (st : StorageState) (job_id event_name folder_name : String)
    (total_members : Nat) : StorageState :=
  { st with
    job_status := dictInsert st.job_status job_id
      { job_id := job_id, event_name := event_name, folder_name := folder_name,
        status := JobStatus.pending,
        progress := { total := total_members, completed := 0, successful := 0, failed := 0 },
        created_at := st.clock, updated_at := st.clock },
    clock := st.clock + 1 }

def update_job_status (st : StorageState) (job_id : String) (status : Option JobStatus)
    (increment_completed increment_successful increment_failed : Bool) : StorageState :=
  match dictLookup st.job_status job_id with
  | none => st
  | some job =>
    let job1 := { job with status := status.getD job.status }
    let job2 := if increment_completed then
        { job1 with progress := { job1.progress with completed := job1.progress.completed + 1 } }
      else job1
    let job3 := if increment_successful then
        { job2 with progress := { job2.progress with successful := job2.progress.successful + 1 } }
      else job2
    let job4 := if increment_failed then
        { job3 with progress := { job3.progress with failed := job3.progress.failed + 1 } }
      else job3
    let job5 := { job4 with updated_at := st.clock }
    { st with job_status := dictInsert st.job_status job_id job5, clock := st.clock + 1 }

def get_job_status (st : StorageState) (job_id : String) : Option JobStatusEntry :=
  dictLookup st.job_status job_id

/-! ## Summary store: write_summary (storage.py lines 133-169) -/

def optStrJson : Option String → JsonVal
  | none => JsonVal.null
  | some s => JsonVal.str s

def optNatJson : Option Nat → JsonVal
  | none => JsonVal.null
  | some n => JsonVal.nat n

/-- m.model_dump() followed by json serialization of one MemberResult. -/
def member_result_json (m : MemberResult) : JsonVal :=
  JsonVal.obj
    [("name", JsonVal.str m.name), ("email", JsonVal.str m.email),
     ("gender", JsonVal.str m.gender), ("status", JsonVal.str m.status.value),
     ("sent_at", optNatJson m.sent_at),
     ("certificate_url", optStrJson m.certificate_url),
     ("error", optStrJson m.error)]

/-- The summary_data dict built inside write_summary. Note that successful and
failed are recounted from the member list and that no announced_name field
is serialized. -/
def summary_json (folder_name job_id event_name date : String) (official : Bool)
    (members : List MemberResult) (status : JobStatus) (created_at : Nat)
    (completed_at : Option Nat) : JsonVal :=
  JsonVal.obj
    [("job_id", JsonVal.str job_id),
     ("event_name", JsonVal.str event_name),
     ("folder_name", JsonVal.str folder_name),
     ("date", JsonVal.str date),
     ("official", JsonVal.bool official),
     ("created_at", JsonVal.nat created_at),
     ("completed_at", optNatJson completed_at),
     ("status", JsonVal.str status.value),
     ("total_members", JsonVal.nat members.length),
     ("successful", JsonVal.nat (members.countP (fun m => m.status == MemberStatus.sent))),
     ("failed", JsonVal.nat (members.countP (fun m => m.status == MemberStatus.failed))),
     ("members", JsonVal.arr (members.map member_result_json))]

/-- Body of StorageManager.write_summary: overwrite summary.json in the folder. -/
def write_summary (st : StorageState) (folder_name job_id event_name date : String)
    (official : Bool) (members : List MemberResult) (status : JobStatus)
    (created_at : Nat) (completed_at : Option Nat) : StorageState :=
  let content := FileText.json (summary_json folder_name job_id event_name date official
    members status created_at completed_at)
  { st with files := dictInsert st.files folder_name content }

/-! ## Summary store: read_summary (storage.py lines 171-212) -/

/-- data[key] on a parsed JSON value: KeyError when the key is missing,
TypeError when the value is not a dict. -/
def jsonGet (v : JsonVal) (key : String) : Except PyExc JsonVal :=
  match v with
  | JsonVal.obj fields =>
    match dictLookup fields key with
    | some x => Except.ok x
    | none => Except.error (PyExc.keyError key)
  | _ => Except.error (PyExc.typeError "value is not subscriptable")

/-- data.get(key): None when the key is missing. -/
def jsonGetOpt (v : JsonVal) (key : String) : Option JsonVal :=
  match v with
  | JsonVal.obj fields => dictLookup fields key
  | _ => none

/-- Python truthiness of an optional JSON value (used for the
"if m.get(...)" guards around fromisoformat). -/
def truthy : Option JsonVal → Bool
  | none => false
  | some JsonVal.null => false
  | some (JsonVal.str s) => !(s == "")
  | some (JsonVal.nat _) => true
  | some (JsonVal.bool b) => b
  | some (JsonVal.arr l) => !l.isEmpty
  | some (JsonVal.obj l) => !l.isEmpty

/-- pydantic validation of a str field. -/
def asStr : JsonVal → Except PyExc String
  | JsonVal.str s => Except.ok s
  | _ => Except.error (PyExc.validationError "Input should be a valid string")

/-- pydantic validation of an int field. -/
def asNat : JsonVal → Except PyExc Nat
  | JsonVal.nat n => Except.ok n
  | _ => Except.error (PyExc.validationError "Input should be a valid integer")

/-- pydantic validation of a bool field. -/
def asBool : JsonVal → Except PyExc Bool
  | JsonVal.bool b => Except.ok b
  | _ => Except.error (PyExc.validationError "Input should be a valid boolean")

/-- datetime.fromisoformat on the Nat-modelled timestamp string:
ValueError on anything that is not such a string. -/
def fromIso : JsonVal → Except PyExc Nat
  | JsonVal.nat n => Except.ok n
  | _ => Except.error (PyExc.valueError "invalid isoformat string")

/-- MemberStatus(x): ValueError when x is not one of the enum values. -/
def memberStatusOfJson : JsonVal → Except PyExc MemberStatus
  | JsonVal.str "pending" => Except.ok MemberStatus.pending
  | JsonVal.str "sent" => Except.ok MemberStatus.sent
  | JsonVal.str "failed" => Except.ok MemberStatus.failed
  | _ => Except.error (PyExc.valueError "not a valid MemberStatus")

/-- JobStatus(x): ValueError when x is not one of the enum values. -/
def jobStatusOfJson : JsonVal → Except PyExc JobStatus
  | JsonVal.str "pending" => Except.ok JobStatus.pending
  | JsonVal.str "processing" => Except.ok JobStatus.processing
  | JsonVal.str "completed" => Except.ok JobStatus.completed
  | JsonVal.str "failed" => Except.ok JobStatus.failed
  | _ => Except.error (PyExc.valueError "not a valid JobStatus")

/-- pydantic validation of an Optional[str] field taken from m.get(...). -/
def asOptStr : Option JsonVal → Except PyExc (Option String)
  | none => Except.ok none
  | some JsonVal.null => Except.ok none
  | some (JsonVal.str s) => Except.ok (some s)
  | some _ => Except.error (PyExc.validationError "Input should be a valid string")

/-- The MemberResult(...) construction in read_summary lines 182-195. -/
def parseMemberResult (v : JsonVal) : Except PyExc MemberResult := do
  let nameJ ← jsonGet v "name"
  let name ← asStr nameJ
  let emailJ ← jsonGet v "email"
  let email ← asStr emailJ
  let genderJ ← jsonGet v "gender"
  let gender ← asStr genderJ
  let statusJ ← jsonGet v "status"
  let status ← memberStatusOfJson statusJ
  let sent_at ← if truthy (jsonGetOpt v "sent_at") then do
      let x ← jsonGet v "sent_at"
      let n ← fromIso x
      pure (some n)
    else pure (none : Option Nat)
  let cert ← asOptStr (jsonGetOpt v "certificate_url")
  let err ← asOptStr (jsonGetOpt v "error")
  pure { name := name, email := email, gender := gender, status := status,
         sent_at := sent_at, certificate_url := cert, error := err }

/-- The list comprehension over data.get("members", []). Iterating a
non-list JSON value ends in a TypeError once an element is subscripted. -/
def parseMembers : JsonVal → Except PyExc (List MemberResult)
  | JsonVal.arr l => l.mapM parseMemberResult
  | _ => Except.error (PyExc.typeError "member entries are not iterable dicts")

/-- pydantic constructor semantics for models.JobSummary: every field of the
model without a default must appear among the passed keyword arguments
(passed = some); announced_name has no default in models.py, completed_at
defaults to None. -/
def JobSummary.validate (job_id event_name announced_name folder_name date : Option String)
    (official : Option Bool) (created_at : Option Nat) (completed_at : Option (Option Nat))
    (status : Option JobStatus) (total_members successful failed : Option Nat)
    (members : Option (List MemberResult)) : Except PyExc JobSummary :=
  match job_id, event_name, announced_name, folder_name, date, official, created_at,
      status, total_members, successful, failed, members with
  | some a1, some a2, some a3, some a4, some a5, some a6, some a7, some a8, some a9,
      some a10, some a11, some a12 =>
    Except.ok { job_id := a1, event_name := a2, announced_name := a3, folder_name := a4,
                date := a5, official := a6, created_at := a7,
                completed_at := completed_at.getD none, status := a8, total_members := a9,
                successful := a10, failed := a11, members := a12 }
  | _, _, _, _, _, _, _, _, _, _, _, _ =>
    Except.error (PyExc.validationError "Field required")

/-- StorageManager.read_summary. The final JobSummary(...) call in storage.py
names no announced_name keyword, so validation is invoked with none there. -/
def read_summary (st : StorageState) (folder_name : String) :
    Except PyExc (Option JobSummary) :=
  match dictLookup st.files folder_name with
  | none => Except.ok none
  | some FileText.notJson => Except.error PyExc.jsonDecodeError
  | some (FileText.json data) => do
    let members ← parseMembers ((jsonGetOpt data "members").getD (JsonVal.arr []))
    let job_id ← jsonGet data "job_id" >>= asStr
    let event_name ← jsonGet data "event_name" >>= asStr
    let folderField ← jsonGet data "folder_name" >>= asStr
    let date ← jsonGet data "date" >>= asStr
    let official ← jsonGet data "official" >>= asBool
    let created_at ← jsonGet data "created_at" >>= fromIso
    let completed_at ← if truthy (jsonGetOpt data "completed_at") then do
        let x ← jsonGet data "completed_at"
        let n ← fromIso x
        pure (some n)
      else pure (none : Option Nat)
    let status ← jsonGet data "status" >>= jobStatusOfJson
    let total_members ← jsonGet data "total_members" >>= asNat
    let successful ← jsonGet data "successful" >>= asNat
    let failed ← jsonGet data "failed" >>= asNat
    let s ← JobSummary.validate (some job_id) (some event_name) none (some folderField)
      (some date) (some official) (some created_at) (some completed_at) (some status)
      (some total_members) (some successful) (some failed) (some members)
    pure (some s)

/-! ## Summary store: list_all_summaries (storage.py lines 214-251) -/

/-- pydantic constructor semantics for models.EventListItem; announced_name
has no default in models.py. -/
def EventListItem.validate (folder_name event_name announced_name date : Option String)
    (created_at : Option Nat) (status : Option JobStatus)
    (total_members successful failed : Option Nat) : Except PyExc EventListItem :=
  match folder_name, event_name, announced_name, date, created_at, status,
      total_members, successful, failed with
  | some a1, some a2, some a3, some a4, some a5, some a6, some a7, some a8, some a9 =>
    Except.ok { folder_name := a1, event_name := a2, announced_name := a3, date := a4,
                created_at := a5, status := a6, total_members := a7, successful := a8,
                failed := a9 }
  | _, _, _, _, _, _, _, _, _ =>
    Except.error (PyExc.validationError "Field required")

/-- Parsing of one folder entry inside the list_all_summaries loop. The
EventListItem(...) call in storage.py names no announced_name keyword. -/
def parseEventListItem : FileText → Except PyExc EventListItem
  | FileText.notJson => Except.error PyExc.jsonDecodeError
  | FileText.json data => do
    let folder_name ← jsonGet data "folder_name" >>= asStr
    let event_name ← jsonGet data "event_name" >>= asStr
    let date ← jsonGet data "date" >>= asStr
    let created_at ← jsonGet data "created_at" >>= fromIso
    let status ← jsonGet data "status" >>= jobStatusOfJson
    let total_members ← jsonGet data "total_members" >>= asNat
    let successful ← jsonGet data "successful" >>= asNat
    let failed ← jsonGet data "failed" >>= asNat
    EventListItem.validate (some folder_name) (some event_name) none (some date)
      (some created_at) (some status) (some total_members) (some successful) (some failed)

/-- The folder loop of list_all_summaries: only json.JSONDecodeError and
KeyError are caught (the entry is skipped); any other exception propagates. -/
def listAllLoop : List (String × FileText) → Except PyExc (List EventListItem)
  | [] => Except.ok []
  | (_, content) :: rest =>
    match parseEventListItem content with
    | Except.ok e => do
      let es ← listAllLoop rest
      Except.ok (e :: es)
    | Except.error PyExc.jsonDecodeError => listAllLoop rest
    | Except.error (PyExc.keyError _) => listAllLoop rest
    | Except.error ex => Except.error ex

/-- Stable insertion used to model events.sort(key=created_at, reverse=True). -/
def insertByCreatedDesc (e : EventListItem) : List EventListItem → List EventListItem
  | [] => [e]
  | x :: xs =>
    if e.created_at ≤ x.created_at then x :: insertByCreatedDesc e xs else e :: x :: xs

def sortByCreatedDesc (l : List EventListItem) : List EventListItem :=
  l.foldl (fun acc e => insertByCreatedDesc e acc) []

/-- StorageManager.list_all_summaries: scan folders, skip entries failing with
JSONDecodeError or KeyError, sort by created_at descending. -/
def list_all_summaries (st : StorageState) : Except PyExc (List EventListItem) := do
  let items ← listAllLoop st.files
  pure (sortByCreatedDesc items)

/-! ## Name sanitizers (storage.sanitize_event_name, services._sanitize_filename).
The regex class "backslash w" is modelled as alphanumeric or underscore and
"backslash s" as Char.isWhitespace. -/

def stripWs (l : List Char) : List Char :=
  ((l.dropWhile Char.isWhitespace).reverse.dropWhile Char.isWhitespace).reverse

/-- One hyphen per maximal whitespace run. -/
def collapseWsRuns : List Char → List Char
  | [] => []
  | [c] => if c.isWhitespace then ['-'] else [c]
  | c :: d :: rest =>
    if c.isWhitespace then
      (if d.isWhitespace then collapseWsRuns (d :: rest) else '-' :: collapseWsRuns (d :: rest))
    else c :: collapseWsRuns (d :: rest)

/-- One hyphen per maximal hyphen run. -/
def collapseHyphens : List Char → List Char
  | [] => []
  | [c] => [c]
  | c :: d :: rest =>
    if c = '-' && d = '-' then collapseHyphens (d :: rest)
    else c :: collapseHyphens (d :: rest)

def keepEventChar (c : Char) : Bool :=
  c.isAlphanum || c = '_' || c.isWhitespace ||
    (0x600 ≤ c.toNat && c.toNat ≤ 0x6FF) || c = '-'

/-- storage.sanitize_event_name; time.time() is passed in as now. -/
def sanitize_event_name (event_name : String) (now : Nat) : String :=
  let s1 := event_name.toList.filter keepEventChar
  let s2 := collapseWsRuns (stripWs s1)
  let s3 := collapseHyphens s2
  let s4 := s3.take 50
  String.mk s4 ++ "-" ++ toString now

def badFilenameChar (c : Char) : Bool :=
  c = '<' || c = '>' || c = ':' || c = '"' || c = '/' || c = '\\' ||
    c = '|' || c = '?' || c = '*'

/-- CertificateService._sanitize_filename. -/
def sanitize_filename (name : String) : String :=
  let s1 := name.toList.filter (fun c => !(badFilenameChar c))
  String.mk (collapseWsRuns (stripWs s1))

/-- Name of the PDF produced for a member: the PPTX stem from
replace_placeholder plus the extension substituted by pptx_to_pdf. -/
def output_pdf_name (memberName : String) : String :=
  sanitize_filename memberName ++ "-output-certificate.pdf"

/-! ## Job runner (services.process_certificates_job) -/

/-- Outcome of the render/convert/send pipeline for one member, as decided by
the external collaborators. The four cases match the branch structure of the
loop body: the except-branch, the pdf_path-is-None branch, and the two
send_email results. -/
inductive StepOutcome where
  | raiseExc (msg : String)
  | convFail
  | sendFail (msg : String)
  | sendOk
deriving DecidableEq, Repr

/-- What one loop iteration decides: the MemberResult it appends, which
counters it increments (completed is always incremented), and whether the
conversion-failure continue skips the per-member summary write. -/
structure MemberStep where
  result : MemberResult
  increment_successful : Bool
  increment_failed : Bool
  skip_summary_write : Bool
deriving DecidableEq, Repr

def certificate_url_for (folder_name memberName : String) : String :=
  "/certificates/" ++ folder_name ++ "/" ++ output_pdf_name memberName

/-- Body of the member loop (services.py lines 237-306) up to the append. -/
def processMember (folder_name : String) (member : Member) (outcome : StepOutcome)
    (now : Nat) : MemberStep :=
  let base : MemberResult :=
    { name := member.name, email := member.email, gender := member.gender.value,
      status := MemberStatus.pending }
  let cert := some (certificate_url_for folder_name member.name)
  match outcome with
  | StepOutcome.raiseExc msg =>
    let r := { base with status := MemberStatus.failed, error := some msg }
    { result := r, increment_successful := false, increment_failed := true,
      skip_summary_write := false }
  | StepOutcome.convFail =>
    let r := { base with status := MemberStatus.failed, error := some "PDF conversion failed" }
    { result := r, increment_successful := false, increment_failed := true,
      skip_summary_write := true }
  | StepOutcome.sendFail msg =>
    let r1 := { base with status := MemberStatus.failed, error := some msg }
    let r := { r1 with certificate_url := cert }
    { result := r, increment_successful := false, increment_failed := true,
      skip_summary_write := false }
  | StepOutcome.sendOk =>
    let r1 := { base with status := MemberStatus.sent, sent_at := some now }
    let r := { r1 with certificate_url := cert }
    { result := r, increment_successful := true, increment_failed := false,
      skip_summary_write := false }

/-- Keyword parameters accepted by StorageManager.write_summary (storage.py
lines 133-144). -/
def write_summary_param_names : List String :=
  ["folder_name", "job_id", "event_name", "date", "official", "members", "status",
   "created_at", "completed_at"]

/-- Keywords named at the per-member write_summary call site
(services.py lines 309-319). -/
def runner_member_write_kwargs : List String :=
  ["folder_name", "job_id", "event_name", "announced_name", "date", "official",
   "members", "status", "created_at"]

/-- Keywords named at the final write_summary call site
(services.py lines 333-344). -/
def runner_final_write_kwargs : List String :=
  ["folder_name", "job_id", "event_name", "announced_name", "date", "official",
   "members", "status", "created_at", "completed_at"]

/-- Python keyword binding: a keyword not among the callee parameters raises
TypeError before the body runs. -/
def bindWriteSummaryKwargs (passed : List String) : Except PyExc Unit :=
  match passed.find? (fun k => !(write_summary_param_names.contains k)) with
  | some k =>
    Except.error (PyExc.typeError ("write_summary() got an unexpected keyword argument " ++ k))
  | none => Except.ok ()

/-- Result of one run of process_certificates_job: the storage state when the
function returns or the exception escapes, the member_results accumulated, and
the exception escaping the function if any. -/
structure RunResult where
  state : StorageState
  member_results : List MemberResult
  raised : Option PyExc
deriving Repr

/-- Final status computation (services.py lines 323-327). -/
def final_status (member_results : List MemberResult) : JobStatus :=
  if member_results.all (fun m => m.status == MemberStatus.failed) then JobStatus.failed
  else JobStatus.completed

/-- Finalization after the loop (services.py lines 321-344): set the final
tracker status, release the event lock, then attempt the final summary write. -/
def finalizeJob (st : StorageState) (job_id event_name date folder_name : String)
    (official : Bool) (acc : List MemberResult) (created_at : Nat) : RunResult :=
  let completed_at := st.clock
  let fs := final_status acc
  let st1 := update_job_status st job_id (some fs) false false false
  let st2 := mark_event_completed st1 event_name
  match bindWriteSummaryKwargs runner_final_write_kwargs with
  | Except.error e => { state := st2, member_results := acc, raised := some e }
  | Except.ok _ =>
    { state := write_summary st2 folder_name job_id event_name date official acc fs
        created_at (some completed_at),
      member_results := acc, raised := none }

/-- The member loop. A per-member exception is caught inside the iteration
(folded into processMember); an exception from the summary write call has no
enclosing handler and escapes the whole function. -/
def runLoop (job_id event_name date folder_name : String) (official : Bool)
    (env : Nat → StepOutcome) (created_at : Nat) :
    List Member → Nat → List MemberResult → StorageState → RunResult
  | [], _, acc, st => finalizeJob st job_id event_name date folder_name official acc created_at
  | member :: rest, i, acc, st =>
    let step := processMember folder_name member (env i) st.clock
    let st1 := update_job_status st job_id none true step.increment_successful
      step.increment_failed
    let acc1 := acc ++ [step.result]
    if step.skip_summary_write then
      runLoop job_id event_name date folder_name official env created_at rest (i + 1) acc1 st1
    else
      match bindWriteSummaryKwargs runner_member_write_kwargs with
      | Except.error e => { state := st1, member_results := acc1, raised := some e }
      | Except.ok _ =>
        runLoop job_id event_name date folder_name official env created_at rest (i + 1) acc1
          (write_summary st1 folder_name job_id event_name date official acc1
            JobStatus.processing created_at none)

/-- services.process_certificates_job. announced_name is not used by the
modelled effects other than being named at the write_summary call sites,
which is captured by the kwargs lists. -/
def process_certificates_job (st : StorageState) (job_id event_name date : String)
    (official : Bool) (members : List Member) (folder_name : String)
    (env : Nat → StepOutcome) : RunResult :=
  let created_at := st.clock
  let st0 := update_job_status st job_id (some JobStatus.processing) false false false
  runLoop job_id event_name date folder_name official env created_at members 0 [] st0

/-! ## Admission (main.create_certificates, lines 77-127) -/

inductive AdmitResult where
  | conflict (active_job_id : Option String)
  | accepted (job_id folder_name : String)
deriving DecidableEq, Repr

/-- The admission path of the POST /certificates handler: check-then-insert on
the active-jobs registry, folder allocation, tracker initialization. The
generated uuid and time.time() are passed in as new_job_id and now. -/
def create_certificates (st : StorageState) (event_name : String) (members : List Member)
    (new_job_id : String) (now : Nat) : AdmitResult × StorageState :=
  if is_event_processing st event_name then
    (AdmitResult.conflict (get_active_job_id st event_name), st)
  else
    let folder_name := sanitize_event_name event_name now
    let st1 := mark_event_processing st event_name new_job_id
    let st2 := initialize_job_status st1 new_job_id event_name folder_name members.length
    (AdmitResult.accepted new_job_id folder_name, st2)

/-- The tracker-update sequence the member loop performs: for each member the
runner applies exactly one update_job_status call with increment_completed and
the success/failure flag pair decided by processMember. runLoop performs a
prefix of this sequence (it is cut short when a summary write raises). -/
def trackerRun (job_id folder_name : String) :
    StorageState → List (Member × StepOutcome) → StorageState
  | st, [] => st
  | st, (m, o) :: rest =>
    let step := processMember folder_name m o st.clock
    trackerRun job_id folder_name
      (update_job_status st job_id none true step.increment_successful step.increment_failed)
      rest

/-! ## Dictionary lemmas -/

theorem dictLookup_insert_self {α : Type} (d : List (String × α)) (k : String) (v : α) :
    dictLookup (dictInsert d k v) k = some v := by
  induction d with
  | nil => simp [dictInsert, dictLookup]
  | cons hd t ih =>
    obtain ⟨k1, v1⟩ := hd
    by_cases hk : k1 = k <;> simp [dictInsert, dictLookup, hk, ih]

theorem dictLookup_eq_none_of_not_mem {α : Type} (d : List (String × α)) (k : String)
    (h : k ∉ d.map Prod.fst) : dictLookup d k = none := by
  induction d with
  | nil => rfl
  | cons hd t ih =>
    obtain ⟨k1, v1⟩ := hd
    simp only [List.map_cons, List.mem_cons] at h
    push_neg at h
    simp [dictLookup, fun h1 : k1 = k => h.1 h1.symm, ih h.2, Ne.symm h.1]

theorem dictLookup_pop_self {α : Type} (d : List (String × α)) (k : String)
    (h : (d.map Prod.fst).Nodup) : dictLookup (dictPop d k) k = none := by
  induction d with
  | nil => rfl
  | cons hd t ih =>
    obtain ⟨k1, v1⟩ := hd
    simp only [List.map_cons, List.nodup_cons] at h
    by_cases hk : k1 = k
    · subst hk
      simpa [dictPop] using dictLookup_eq_none_of_not_mem t k1 h.1
    · simp [dictPop, hk, dictLookup, ih h.2]

/-! ## Claim theorems -/

/-- C3 counterexample: on an empty member-result list the runner computes final
status failed (the all-failed check is vacuously true), not completed as
claimed for the empty case. -/
theorem final_status_empty_list_is_failed :
    final_status [] = JobStatus.failed ∧ JobStatus.failed ≠ JobStatus.completed :=
  ⟨rfl, by decide⟩

/-- C3 (amended): the final job status is failed iff every MemberResult has
status failed, vacuously including the empty list; in every other case it is
completed. -/
theorem final_status_failed_iff_all_failed (rs : List MemberResult) :
    (final_status rs = JobStatus.failed ↔ ∀ r ∈ rs, r.status = MemberStatus.failed)
    ∧ (final_status rs = JobStatus.completed ↔ ¬ ∀ r ∈ rs, r.status = MemberStatus.failed) := by
  unfold final_status
  by_cases h : ∀ r ∈ rs, r.status = MemberStatus.failed
  · rw [if_pos (by simpa [List.all_eq_true] using h)]
    exact ⟨⟨fun _ => h, fun _ => rfl⟩,
      ⟨fun hc => absurd hc (by decide), fun hn => absurd h hn⟩⟩
  · rw [if_neg (by simpa [List.all_eq_true] using h)]
    exact ⟨⟨fun hc => absurd hc (by decide), fun hall => absurd hall h⟩,
      ⟨fun _ => h, fun _ => rfl⟩⟩

/-- C3 witness: the amended rule evaluated on a singleton failed list. -/
theorem final_status_failed_iff_all_failed_witness :
    final_status [⟨"A", "a@b.c", "male", MemberStatus.failed, none, none, none⟩]
      = JobStatus.failed ↔
    ∀ r ∈ [(⟨"A", "a@b.c", "male", MemberStatus.failed, none, none, none⟩ : MemberResult)],
      r.status = MemberStatus.failed :=
  (final_status_failed_iff_all_failed
    [⟨"A", "a@b.c", "male", MemberStatus.failed, none, none, none⟩]).1

/-- C7 counterexample: a summary file whose content json.load rejects makes
read_summary raise (JSONDecodeError), it does not return the empty result. -/
theorem read_summary_malformed_raises :
    read_summary ⟨[], [], [("f", FileText.notJson)], 0⟩ "f"
      = Except.error PyExc.jsonDecodeError
    ∧ read_summary ⟨[], [], [("f", FileText.notJson)], 0⟩ "f" ≠ Except.ok none :=
  ⟨rfl, fun h => Except.noConfusion h⟩

/-- C7 (amended): read_summary returns nothing when the summary file is
absent, but an existing malformed file raises an exception instead of being
treated as no-summary-yet. -/
theorem read_summary_absent_none_malformed_raises (st : StorageState) (fol : String) :
    (dictLookup st.files fol = none → read_summary st fol = Except.ok none)
    ∧ (dictLookup st.files fol = some FileText.notJson →
        read_summary st fol = Except.error PyExc.jsonDecodeError) := by
  constructor <;> intro h <;> simp [read_summary, h]

/-- C7 witness: both branches evaluated on concrete stores. -/
theorem read_summary_absent_none_malformed_raises_witness :
    read_summary ⟨[], [], [], 0⟩ "g" = Except.ok none
    ∧ read_summary ⟨[], [], [("f", FileText.notJson)], 0⟩ "f"
      = Except.error PyExc.jsonDecodeError :=
  ⟨(read_summary_absent_none_malformed_raises ⟨[], [], [], 0⟩ "g").1 rfl,
   (read_summary_absent_none_malformed_raises ⟨[], [], [("f", FileText.notJson)], 0⟩ "f").2 rfl⟩

/-- C9: a conversion failure yields a failed MemberResult with error
"PDF conversion failed" and no certificate reference; a send failure yields a
failed MemberResult carrying the collaborator message and the certificate
reference. -/
theorem member_result_failure_fields (fol : String) (m : Member) (o : StepOutcome) (now : Nat) :
    (o = StepOutcome.convFail →
      (processMember fol m o now).result.status = MemberStatus.failed
      ∧ (processMember fol m o now).result.error = some "PDF conversion failed"
      ∧ (processMember fol m o now).result.certificate_url = none)
    ∧ (∀ msg, o = StepOutcome.sendFail msg →
      (processMember fol m o now).result.status = MemberStatus.failed
      ∧ (processMember fol m o now).result.error = some msg
      ∧ (processMember fol m o now).result.certificate_url
          = some (certificate_url_for fol m.name)) := by
  constructor
  · intro h; subst h; exact ⟨rfl, rfl, rfl⟩
  · intro msg h; subst h; exact ⟨rfl, rfl, rfl⟩

/-- C9 witness: both failure modes evaluated for a concrete member. -/
theorem member_result_failure_fields_witness :
    ((processMember "fold" (⟨"A", "a@b.c", Gender.male⟩ : Member)
        StepOutcome.convFail 0).result.status = MemberStatus.failed
      ∧ (processMember "fold" (⟨"A", "a@b.c", Gender.male⟩ : Member)
        StepOutcome.convFail 0).result.error = some "PDF conversion failed"
      ∧ (processMember "fold" (⟨"A", "a@b.c", Gender.male⟩ : Member)
        StepOutcome.convFail 0).result.certificate_url = none)
    ∧ ((processMember "fold" (⟨"A", "a@b.c", Gender.male⟩ : Member)
        (StepOutcome.sendFail "SMTP down") 0).result.status = MemberStatus.failed
      ∧ (processMember "fold" (⟨"A", "a@b.c", Gender.male⟩ : Member)
        (StepOutcome.sendFail "SMTP down") 0).result.error = some "SMTP down"
      ∧ (processMember "fold" (⟨"A", "a@b.c", Gender.male⟩ : Member)
        (StepOutcome.sendFail "SMTP down") 0).result.certificate_url
          = some (certificate_url_for "fold" "A")) :=
  ⟨(member_result_failure_fields "fold" (⟨"A", "a@b.c", Gender.male⟩ : Member)
      StepOutcome.convFail 0).1 rfl,
   (member_result_failure_fields "fold" (⟨"A", "a@b.c", Gender.male⟩ : Member)
      (StepOutcome.sendFail "SMTP down") 0).2 "SMTP down" rfl⟩


/-- C1: a job admitted for event Camp whose single member renders, converts and
sends successfully never releases the event lock: the first per-member summary
write raises TypeError (write_summary has no announced_name parameter but the
call site passes one), the exception escapes process_certificates_job before
mark_event_completed runs, and Camp stays mapped to the job in active_jobs. -/
theorem event_lock_not_released_when_summary_write_raises :
    (process_certificates_job
      (initialize_job_status (mark_event_processing ⟨[], [], [], 0⟩ "Camp" "job-1")
        "job-1" "Camp" "Camp-17" 1)
      "job-1" "Camp" "2024-05-01" true [(⟨"Alice", "alice@example.com", Gender.female⟩ : Member)]
      "Camp-17" (fun _ => StepOutcome.sendOk)).raised
      = some (PyExc.typeError "write_summary() got an unexpected keyword argument announced_name")
    ∧ dictLookup (process_certificates_job
      (initialize_job_status (mark_event_processing ⟨[], [], [], 0⟩ "Camp" "job-1")
        "job-1" "Camp" "Camp-17" 1)
      "job-1" "Camp" "2024-05-01" true [(⟨"Alice", "alice@example.com", Gender.female⟩ : Member)]
      "Camp-17" (fun _ => StepOutcome.sendOk)).state.active_jobs "Camp" = some "job-1" :=
  ⟨rfl, rfl⟩

/-- C5: in a 2-member job where both conversions fail, the counters are
incremented and both MemberResults appended, yet no summary is ever written:
the conversion-failure branch continues past the per-member write, the loop
therefore finishes and releases the lock, and the final write raises
TypeError, leaving the summary store untouched. -/
theorem per_member_summary_write_skipped_or_raises :
    (process_certificates_job
      (initialize_job_status (mark_event_processing ⟨[], [], [], 0⟩ "Camp" "job-2")
        "job-2" "Camp" "Camp-17" 2)
      "job-2" "Camp" "2024" false
      [(⟨"Alice", "alice@example.com", Gender.female⟩ : Member),
       (⟨"Bob", "bob@example.com", Gender.male⟩ : Member)]
      "Camp-17" (fun _ => StepOutcome.convFail)).state.files = []
    ∧ (process_certificates_job
      (initialize_job_status (mark_event_processing ⟨[], [], [], 0⟩ "Camp" "job-2")
        "job-2" "Camp" "Camp-17" 2)
      "job-2" "Camp" "2024" false
      [(⟨"Alice", "alice@example.com", Gender.female⟩ : Member),
       (⟨"Bob", "bob@example.com", Gender.male⟩ : Member)]
      "Camp-17" (fun _ => StepOutcome.convFail)).raised
      = some (PyExc.typeError "write_summary() got an unexpected keyword argument announced_name")
    ∧ dictLookup (process_certificates_job
      (initialize_job_status (mark_event_processing ⟨[], [], [], 0⟩ "Camp" "job-2")
        "job-2" "Camp" "Camp-17" 2)
      "job-2" "Camp" "2024" false
      [(⟨"Alice", "alice@example.com", Gender.female⟩ : Member),
       (⟨"Bob", "bob@example.com", Gender.male⟩ : Member)]
      "Camp-17" (fun _ => StepOutcome.convFail)).state.active_jobs "Camp" = none
    ∧ (process_certificates_job
      (initialize_job_status (mark_event_processing ⟨[], [], [], 0⟩ "Camp" "job-2")
        "job-2" "Camp" "Camp-17" 2)
      "job-2" "Camp" "2024" false
      [(⟨"Alice", "alice@example.com", Gender.female⟩ : Member),
       (⟨"Bob", "bob@example.com", Gender.male⟩ : Member)]
      "Camp-17" (fun _ => StepOutcome.convFail)).member_results.map MemberResult.status
      = [MemberStatus.failed, MemberStatus.failed]
    ∧ (get_job_status (process_certificates_job
      (initialize_job_status (mark_event_processing ⟨[], [], [], 0⟩ "Camp" "job-2")
        "job-2" "Camp" "Camp-17" 2)
      "job-2" "Camp" "2024" false
      [(⟨"Alice", "alice@example.com", Gender.female⟩ : Member),
       (⟨"Bob", "bob@example.com", Gender.male⟩ : Member)]
      "Camp-17" (fun _ => StepOutcome.convFail)).state "job-2").map JobStatusEntry.progress
      = some ⟨2, 2, 0, 2⟩ :=
  ⟨rfl, rfl, rfl, rfl, rfl⟩

/-- C8: listing summaries over a store holding one malformed file and one
summary exactly as write_summary produces it raises ValidationError (the
EventListItem construction in list_all_summaries passes no announced_name,
a required field, and only JSONDecodeError and KeyError are caught); with
only the malformed file the listing succeeds by skipping it. -/
theorem list_all_summaries_raises_on_readable_summary :
    list_all_summaries
      (write_summary ⟨[], [], [("bad", FileText.notJson)], 0⟩ "good" "j1" "Event" "2024"
        true [⟨"A", "a@b.c", "male", MemberStatus.sent, some 5, some "u", none⟩]
        JobStatus.completed 3 (some 9))
      = Except.error (PyExc.validationError "Field required")
    ∧ list_all_summaries ⟨[], [], [("bad", FileText.notJson)], 0⟩ = Except.ok [] :=
  ⟨rfl, rfl⟩

/-- A serialized MemberResult deserializes to exactly the value written:
the member level of the summary file does round-trip. -/
theorem parse_member_result_json (m : MemberResult) :
    parseMemberResult (member_result_json m) = Except.ok m := by
  rcases m with ⟨name, email, gender, status, sent_at, cert, err⟩
  cases status <;> cases sent_at <;> cases cert <;> cases err <;> rfl

/-- The members array of a written summary parses back to the written list. -/
theorem parse_members_json (members : List MemberResult) :
    parseMembers (JsonVal.arr (members.map member_result_json)) = Except.ok members := by
  induction members with
  | nil => rfl
  | cons m rest ih =>
    have ih2 : List.mapM parseMemberResult (rest.map member_result_json)
        = Except.ok rest := ih
    show List.mapM parseMemberResult ((m :: rest).map member_result_json)
        = Except.ok (m :: rest)
    rw [List.map_cons, List.mapM_cons, parse_member_result_json, ih2]
    rfl

/-- C6: write_summary followed by read_summary of the same folder never
succeeds: every field and every member parses back, but the final
JobSummary construction fails validation because models.JobSummary requires
announced_name, which write_summary does not serialize and read_summary does
not pass. -/
theorem summary_write_then_read_raises_validation_error
    (st : StorageState) (fol jid ev date : String) (off : Bool)
    (members : List MemberResult) (status : JobStatus) (created : Nat) (comp : Option Nat) :
    read_summary (write_summary st fol jid ev date off members status created comp) fol
      = Except.error (PyExc.validationError "Field required") := by
  have hm : parseMembers ((jsonGetOpt (summary_json fol jid ev date off members status
      created comp) "members").getD (JsonVal.arr []))
      = Except.ok members := parse_members_json members
  unfold write_summary read_summary
  rw [dictLookup_insert_self]
  dsimp only
  rw [hm]
  cases comp <;> cases status <;> rfl

/-- Admission when no entry is active: the request is accepted with the fresh
token and the registry maps the event name to it. -/
theorem create_certificates_accepted (st : StorageState) (e jid : String)
    (ms : List Member) (t : Nat) (h : dictLookup st.active_jobs e = none) :
    (create_certificates st e ms jid t).1 = AdmitResult.accepted jid (sanitize_event_name e t)
    ∧ dictLookup (create_certificates st e ms jid t).2.active_jobs e = some jid := by
  unfold create_certificates
  rw [if_neg (by simp [is_event_processing, h])]
  refine ⟨rfl, ?_⟩
  show dictLookup (initialize_job_status (mark_event_processing st e jid) jid e
    (sanitize_event_name e t) ms.length).active_jobs e = some jid
  simpa [initialize_job_status, mark_event_processing] using
    dictLookup_insert_self st.active_jobs e jid

/-- C2: admission is denied with the active job token iff the registry holds
an entry for that exact event-name string (and then nothing changes);
otherwise the entry event name to fresh token is inserted and admission is
accepted; and after mark_event_completed the same name is admittable again
with a new token. -/
theorem admission_conflict_iff_active_entry (st : StorageState) (e jid jid2 : String)
    (ms ms2 : List Member) (t1 t2 : Nat)
    (hn : (st.active_jobs.map Prod.fst).Nodup) :
    (∀ tok, dictLookup st.active_jobs e = some tok →
      create_certificates st e ms jid t1 = (AdmitResult.conflict (some tok), st))
    ∧ (dictLookup st.active_jobs e = none →
      (create_certificates st e ms jid t1).1
          = AdmitResult.accepted jid (sanitize_event_name e t1)
      ∧ dictLookup (create_certificates st e ms jid t1).2.active_jobs e = some jid)
    ∧ ((create_certificates (mark_event_completed st e) e ms2 jid2 t2).1
        = AdmitResult.accepted jid2 (sanitize_event_name e t2)
      ∧ dictLookup
          (create_certificates (mark_event_completed st e) e ms2 jid2 t2).2.active_jobs e
        = some jid2) := by
  refine ⟨?_, ?_, ?_⟩
  · intro tok htok
    unfold create_certificates
    rw [if_pos (by simp [is_event_processing, htok])]
    unfold get_active_job_id
    rw [htok]
  · intro h
    exact create_certificates_accepted st e jid ms t1 h
  · exact create_certificates_accepted (mark_event_completed st e) e jid2 ms2 t2
      (dictLookup_pop_self st.active_jobs e hn)

/-- C2 witness: with Camp held by job-1, a second admission conflicts and
reports job-1; after release, job-3 is admitted for Camp. -/
theorem admission_conflict_iff_active_entry_witness :
    create_certificates ⟨[("Camp", "job-1")], [], [], 0⟩ "Camp" [] "job-2" 5
      = (AdmitResult.conflict (some "job-1"), ⟨[("Camp", "job-1")], [], [], 0⟩)
    ∧ (create_certificates (mark_event_completed ⟨[("Camp", "job-1")], [], [], 0⟩ "Camp")
        "Camp" [] "job-3" 6).1 = AdmitResult.accepted "job-3" (sanitize_event_name "Camp" 6) :=
  ⟨(admission_conflict_iff_active_entry ⟨[("Camp", "job-1")], [], [], 0⟩ "Camp" "job-2"
      "job-3" [] [] 5 6 (by decide)).1 "job-1" rfl,
   ((admission_conflict_iff_active_entry ⟨[("Camp", "job-1")], [], [], 0⟩ "Camp" "job-2"
      "job-3" [] [] 5 6 (by decide)).2.2).1⟩

/-- Every loop iteration increments completed together with exactly one of
successful and failed. -/
theorem processMember_one_increment (fol : String) (m : Member) (o : StepOutcome) (now : Nat) :
    cond (processMember fol m o now).increment_successful 1 0
      + cond (processMember fol m o now).increment_failed 1 0 = 1 := by
  cases o <;> rfl

/-- Effect of one increment call of update_job_status on a present entry. -/
theorem update_job_status_inc (st : StorageState) (jid : String) (en : JobStatusEntry)
    (b c : Bool) (h : dictLookup st.job_status jid = some en) :
    ∃ en2, dictLookup (update_job_status st jid none true b c).job_status jid = some en2
      ∧ en2.progress.total = en.progress.total
      ∧ en2.progress.completed = en.progress.completed + 1
      ∧ en2.progress.successful = en.progress.successful + cond b 1 0
      ∧ en2.progress.failed = en.progress.failed + cond c 1 0 := by
  unfold update_job_status
  rw [h]
  cases b <;> cases c <;>
    exact ⟨_, dictLookup_insert_self _ _ _, rfl, rfl, rfl, rfl⟩

/-- Effect of a whole tracker-update sequence on a present entry: total is
preserved, completed grows by the number of processed members, successful and
failed grow by that amount jointly and each monotonically. -/
theorem trackerRun_progress (jid fol : String) :
    ∀ (l : List (Member × StepOutcome)) (st : StorageState) (en : JobStatusEntry),
      dictLookup st.job_status jid = some en →
      ∃ en2, dictLookup (trackerRun jid fol st l).job_status jid = some en2
        ∧ en2.progress.total = en.progress.total
        ∧ en2.progress.completed = en.progress.completed + l.length
        ∧ en2.progress.successful + en2.progress.failed
            = en.progress.successful + en.progress.failed + l.length
        ∧ en.progress.successful ≤ en2.progress.successful
        ∧ en.progress.failed ≤ en2.progress.failed := by
  intro l
  induction l with
  | nil =>
    intro st en h
    exact ⟨en, h, rfl, rfl, rfl, le_refl _, le_refl _⟩
  | cons p rest ih =>
    intro st en h
    obtain ⟨m, o⟩ := p
    obtain ⟨en1, h1, ht1, hc1, hs1, hf1⟩ := update_job_status_inc st jid en
      (processMember fol m o st.clock).increment_successful
      (processMember fol m o st.clock).increment_failed h
    obtain ⟨en2, h2, ht2, hc2, hsf2, hs2, hf2⟩ := ih _ en1 h1
    have hone := processMember_one_increment fol m o st.clock
    refine ⟨en2, h2, ?_, ?_, ?_, ?_, ?_⟩
    · rw [ht2, ht1]
    · rw [hc2, hc1]; simp [List.length_cons]; omega
    · rw [hsf2, hs1, hf1]; simp [List.length_cons]; omega
    · omega
    · omega

/-- trackerRun over a concatenation runs the two parts in sequence. -/
theorem trackerRun_append (jid fol : String) (l1 l2 : List (Member × StepOutcome)) :
    ∀ st, trackerRun jid fol st (l1 ++ l2) = trackerRun jid fol (trackerRun jid fol st l1) l2 := by
  induction l1 with
  | nil => intro st; rfl
  | cons p rest ih =>
    intro st
    obtain ⟨m, o⟩ := p
    exact ih _

/-- The tracker entry created by initialize_job_status. -/
theorem initialize_job_status_lookup (st : StorageState) (jid ev fol : String) (n : Nat) :
    dictLookup (initialize_job_status st jid ev fol n).job_status jid
      = some ⟨jid, ev, fol, JobStatus.pending, ⟨n, 0, 0, 0⟩, st.clock, st.clock⟩ :=
  dictLookup_insert_self _ _ _

/-- C4: starting from the entry initialized with total = number of members,
after any prefix of k member updates the tracker satisfies total = number of
members, completed = k, successful + failed = completed and completed ≤ total,
and the counters at the next prefix dominate the current ones (monotonicity);
instantiated at k = length this gives the completion equalities. -/
theorem tracker_counters_invariant (st0 : StorageState) (jid ev fol : String)
    (pairs : List (Member × StepOutcome)) (k : Nat) (hk : k ≤ pairs.length) :
    ∃ en, dictLookup (trackerRun jid fol
        (initialize_job_status st0 jid ev fol pairs.length) (pairs.take k)).job_status jid
        = some en
      ∧ en.progress.total = pairs.length
      ∧ en.progress.completed = k
      ∧ en.progress.successful + en.progress.failed = en.progress.completed
      ∧ en.progress.completed ≤ en.progress.total
      ∧ ∀ en2, dictLookup (trackerRun jid fol
            (initialize_job_status st0 jid ev fol pairs.length)
            (pairs.take (k + 1))).job_status jid = some en2 →
          en.progress.completed ≤ en2.progress.completed
          ∧ en.progress.successful ≤ en2.progress.successful
          ∧ en.progress.failed ≤ en2.progress.failed := by
  obtain ⟨en, h, ht, hc, hsf, _, _⟩ := trackerRun_progress jid fol (pairs.take k) _ _
    (initialize_job_status_lookup st0 jid ev fol pairs.length)
  have hlen : (pairs.take k).length = k := by
    simp [List.length_take, Nat.min_eq_left hk]
  dsimp only at ht hc hsf
  rw [hlen] at hc hsf
  refine ⟨en, h, ht, by omega, by omega, by omega, ?_⟩
  intro en2 h2
  by_cases hklt : k < pairs.length
  · have hp : pairs[k]? = some (pairs.get ⟨k, hklt⟩) := by
      rw [List.getElem?_eq_getElem hklt, List.get_eq_getElem]
    have htake : pairs.take (k + 1) = pairs.take k ++ [pairs.get ⟨k, hklt⟩] := by
      rw [List.take_succ, hp]
      rfl
    obtain ⟨en2a, h2a, _, hc2, _, hs2, hf2⟩ :=
      trackerRun_progress jid fol [pairs.get ⟨k, hklt⟩] _ _ h
    rw [htake, trackerRun_append] at h2
    rw [h2a] at h2
    cases h2
    exact ⟨by omega, hs2, hf2⟩
  · have hkeq : pairs.length ≤ k := le_of_not_lt hklt
    have htake : pairs.take (k + 1) = pairs.take k := by
      rw [List.take_of_length_le hkeq, List.take_of_length_le (le_trans hkeq (Nat.le_succ _))]
    rw [htake, h] at h2
    cases h2
    exact ⟨le_refl _, le_refl _, le_refl _⟩

/-- C4 witness: one successful member; at k = 1 the completion equalities
hold on the concrete tracker state. -/
theorem tracker_counters_invariant_witness :
    ∃ en, dictLookup (trackerRun "j" "F"
        (initialize_job_status ⟨[], [], [], 0⟩ "j" "E" "F"
          [((⟨"A", "a@b.c", Gender.male⟩ : Member), StepOutcome.sendOk)].length)
        ([((⟨"A", "a@b.c", Gender.male⟩ : Member), StepOutcome.sendOk)].take 1)).job_status "j"
        = some en
      ∧ en.progress.total = [((⟨"A", "a@b.c", Gender.male⟩ : Member), StepOutcome.sendOk)].length
      ∧ en.progress.completed = 1
      ∧ en.progress.successful + en.progress.failed = en.progress.completed
      ∧ en.progress.completed ≤ en.progress.total
      ∧ ∀ en2, dictLookup (trackerRun "j" "F"
            (initialize_job_status ⟨[], [], [], 0⟩ "j" "E" "F"
              [((⟨"A", "a@b.c", Gender.male⟩ : Member), StepOutcome.sendOk)].length)
            ([((⟨"A", "a@b.c", Gender.male⟩ : Member), StepOutcome.sendOk)].take (1 + 1))).job_status "j"
            = some en2 →
          en.progress.completed ≤ en2.progress.completed
          ∧ en.progress.successful ≤ en2.progress.successful
          ∧ en.progress.failed ≤ en2.progress.failed :=
  tracker_counters_invariant ⟨[], [], [], 0⟩ "j" "E" "F"
    [((⟨"A", "a@b.c", Gender.male⟩ : Member), StepOutcome.sendOk)] 1 (by decide)


/-- Every branch of the member loop sets the result status to sent or failed
before the append. -/
theorem processMember_result_not_pending (fol : String) (m : Member) (o : StepOutcome)
    (now : Nat) :
    (processMember fol m o now).result.status ≠ MemberStatus.pending := by
  cases o <;> exact fun h => MemberStatus.noConfusion h

/-- The per-member write_summary call raises TypeError on keyword binding. -/
theorem bind_member_kwargs_typeError :
    bindWriteSummaryKwargs runner_member_write_kwargs
      = Except.error (PyExc.typeError
          "write_summary() got an unexpected keyword argument announced_name") := rfl

/-- No result accumulated by the member loop keeps the pending status. -/
theorem runLoop_results_not_pending (jid ev date fol : String) (off : Bool)
    (env : Nat → StepOutcome) (created : Nat) :
    ∀ (ms : List Member) (i : Nat) (acc : List MemberResult) (st : StorageState),
      (∀ r ∈ acc, r.status ≠ MemberStatus.pending) →
      ∀ r ∈ (runLoop jid ev date fol off env created ms i acc st).member_results,
        r.status ≠ MemberStatus.pending := by
  intro ms
  induction ms with
  | nil =>
    intro i acc st hacc r hr
    exact hacc r hr
  | cons m rest ih =>
    intro i acc st hacc r hr
    have hacc1 : ∀ r2 ∈ acc ++ [(processMember fol m (env i) st.clock).result],
        r2.status ≠ MemberStatus.pending := by
      intro r2 hr2
      rcases List.mem_append.mp hr2 with h1 | h1
      · exact hacc r2 h1
      · rcases List.mem_singleton.mp h1 with rfl
        exact processMember_result_not_pending fol m (env i) st.clock
    simp only [runLoop] at hr
    rw [bind_member_kwargs_typeError] at hr
    by_cases hs : (processMember fol m (env i) st.clock).skip_summary_write = true
    · rw [if_pos hs] at hr
      exact ih (i + 1) _ _ hacc1 r hr
    · rw [if_neg hs] at hr
      exact hacc1 r hr

/-- C10: every MemberResult in the runner result list (whatever the
collaborator outcomes) has status sent or failed, never pending. -/
theorem appended_results_never_pending (st : StorageState) (jid ev date : String)
    (off : Bool) (ms : List Member) (fol : String) (env : Nat → StepOutcome) :
    ∀ r ∈ (process_certificates_job st jid ev date off ms fol env).member_results,
      r.status ≠ MemberStatus.pending := by
  intro r hr
  exact runLoop_results_not_pending jid ev date fol off env st.clock ms 0 []
    (update_job_status st jid (some JobStatus.processing) false false false)
    (fun r2 hr2 => absurd hr2 (List.not_mem_nil r2)) r hr

/-- C10 witness: the single result of a conversion-failure run is not pending. -/
theorem appended_results_never_pending_witness :
    ((⟨"A", "a@b.c", "male", MemberStatus.failed, none, none,
        some "PDF conversion failed"⟩ : MemberResult)).status ≠ MemberStatus.pending :=
  appended_results_never_pending ⟨[], [], [], 0⟩ "j" "E" "d" true
    [(⟨"A", "a@b.c", Gender.male⟩ : Member)] "F" (fun _ => StepOutcome.convFail)
    ⟨"A", "a@b.c", "male", MemberStatus.failed, none, none, some "PDF conversion failed"⟩
    (by decide)

end SendCert
